import Mathlib

/-!
# Verification of the ConvertWAV2BNK batch pipeline

Shallow embedding of the two Python scripts
`wwise_wav2bnk_macos.py` (macOS edition, class `Worker`) and
`wwise_wav2bnk_window.py` (Windows "Pro" edition, class `WwiseBatchWorker`
and the `--ci` entry point `main`).

Filesystem paths are modelled POSIX-style as lists of components (for the
executable resolver, which inspects `Path.parts`) or as plain strings joined
with "/" (for the manifest builders, which only concatenate).  File contents
are modelled as the string of bytes/text that the corresponding bounded read
returns (`read_text` for scripts, the first 1 MiB chunk for binaries);
a read that raises is modelled by `readOk = false`.  External processes are
modelled by an oracle from argument vectors to exit codes; the run models
record the argument vector of every process invocation in order.
-/

namespace W2B

/-- `leadsWith pre l` holds when the character list `pre` is an initial
segment of `l`. -/
def leadsWith : List Char → List Char → Bool
  | [], _ => true
  | _ :: _, [] => false
  | a :: as, b :: bs => a == b && leadsWith as bs

/-- `occursIn needle hay`: the character list `needle` occurs contiguously
inside `hay` (the semantics of the Python `in` operator on str and bytes). -/
def occursIn (needle : List Char) : List Char → Bool
  | [] => leadsWith needle []
  | c :: cs => leadsWith needle (c :: cs) || occursIn needle cs

/-- Python `needle in hay` for strings. -/
def strHas (hay needle : String) : Bool := occursIn needle.data hay.data

/-- `hay.endswith(suf)`: `suf` is a final segment of `hay`. -/
def strEndsWith (hay suf : String) : Bool :=
  leadsWith suf.data.reverse hay.data.reverse

/-- ASCII lower-casing of one character (`str.lower` on the alphabets the
scripts compare against). -/
def lowerChar (c : Char) : Char :=
  if 65 ≤ c.toNat ∧ c.toNat ≤ 90 then Char.ofNat (c.toNat + 32) else c

/-- `s.lower()` (ASCII). -/
def strLower (s : String) : String := String.mk (s.data.map lowerChar)

/-- `str.split(sep)` on a one-character separator, keeping empty pieces. -/
def splitChar (sep : Char) : List Char → List (List Char)
  | [] => [[]]
  | c :: cs =>
    if c == sep then [] :: splitChar sep cs
    else
      match splitChar sep cs with
      | [] => [[c]]
      | h :: t => (c :: h) :: t

/-- `str.split(sep)` producing strings. -/
def splitOnChar (sep : Char) (s : String) : List String :=
  (splitChar sep s.data).map String.mk

/-- `s.replace(old, new)` for one-character pattern and replacement (the
only form the scripts use: `rel_path.replace(os.sep, "\\")`). -/
def charSwap (old new : Char) (s : String) : String :=
  String.mk (s.data.map (fun c => if c == old then new else c))

/-- `pathlib` suffix of a file *name*: the part from the last dot on,
provided that dot is neither the first nor the last character
(the suffix of "a.sh" is ".sh"; the suffix of ".sh" is ""). -/
def pathSuffix (n : String) : String :=
  let cs := n.data
  match cs.reverse.findIdx? (· == '.') with
  | none => ""
  | some k =>
    let i := cs.length - 1 - k
    if 0 < i ∧ i < cs.length - 1 then String.mk (cs.drop i) else ""

/-- `pathlib` stem of a file name: the name with `pathSuffix` removed
(the stem of "a.wav" is "a"; the stem of ".wav" is ".wav"). -/
def pathStem (n : String) : String :=
  let cs := n.data
  match cs.reverse.findIdx? (· == '.') with
  | none => n
  | some k =>
    let i := cs.length - 1 - k
    if 0 < i ∧ i < cs.length - 1 then String.mk (cs.take i) else n

/-- Eligibility test of both scripts: `f.lower().endswith(".wav")`. -/
def isWavName (f : String) : Bool := strEndsWith (strLower f) ".wav"

/-- `Path(w).name` on a POSIX path string: the part after the last "/". -/
def posixName (w : String) : String := (splitOnChar '/' w).getLastD w

/-- `Path(w).parent.name` on a POSIX path string. -/
def parentName (w : String) : String :=
  ((splitOnChar '/' w).dropLast).getLastD ""

/-- `os.path.join` folded over a list of extra components (POSIX separator). -/
def joinPath (root : String) (parts : List String) : String :=
  parts.foldl (fun a c => a ++ "/" ++ c) root

/-! ## Manifest building (macOS `Worker.generate_import_json`) -/

/-- One directory visited by `os.walk(wav_dir)`: its location relative to the
walk root (empty for the root itself) and its file names in filesystem
enumeration order.  The absolute root handed out by `os.walk` is recovered as
`joinPath wavDir relParts`, and `os.path.relpath(root, wav_dir)` as `"."`
for the root and the "/"-joined components otherwise. -/
structure WalkEntry where
  relParts : List String
  files : List String
deriving DecidableEq

/-- One element of the `imports` list of the macOS manifest. -/
structure ImportEntry where
  audioFile : String
  objectPath : String
deriving DecidableEq

/-- Destination object path computed by `generate_import_json`
(lines 111–116 of `wwise_wav2bnk_macos.py`). -/
def macObjectPath (relParts : List String) (f : String) : String :=
  let obj := pathStem f
  if relParts = [] then
    "\\Actor-Mixer Hierarchy\\Auto\\" ++ obj
  else
    "\\Actor-Mixer Hierarchy\\Auto\\"
      ++ charSwap '/' '\\' (String.intercalate "/" relParts) ++ "\\" ++ obj

/-- The import entry built for file `f` of walk directory `relParts`:
`audioFile = os.path.join(root, f)`, `objectPath = macObjectPath`. -/
def macEntry (wavDir : String) (relParts : List String) (f : String) :
    ImportEntry :=
  { audioFile := joinPath (joinPath wavDir relParts) [f]
    objectPath := macObjectPath relParts f }

/-- `Worker.generate_import_json` (lines 104–121): the nested
`for root … for f … if f.lower().endswith(".wav"): imports.append(…)` loops,
as a fold that appends one entry per eligible file in enumeration order. -/
def macImports (wavDir : String) (walk : List WalkEntry) : List ImportEntry :=
  walk.foldl
    (fun acc e =>
      e.files.foldl
        (fun acc2 f =>
          if isWavName f then acc2 ++ [macEntry wavDir e.relParts f] else acc2)
        acc)
    []

/-- Minimal JSON value model for the manifest files. -/
inductive Json where
  | jstr : String → Json
  | jarr : List Json → Json
  | jobj : List (String × Json) → Json

/-- Key lookup in a JSON object (first binding wins, like a Python dict
built from distinct keys). -/
def Json.get? : Json → String → Option Json
  | .jobj kvs, k => (kvs.find? (fun kv => kv.1 == k)).map (fun kv => kv.2)
  | _, _ => none

/-- JSON shape of one macOS import entry. -/
def entryJson (e : ImportEntry) : Json :=
  .jobj [("audioFile", .jstr e.audioFile), ("objectPath", .jstr e.objectPath)]

/-- The JSON document written to `/tmp/import_wwise.json` by
`generate_import_json` (line 122):
`{"importOperation": "useExisting", "imports": imports}`. -/
def macManifest (wavDir : String) (walk : List WalkEntry) : Json :=
  .jobj [("importOperation", .jstr "useExisting"),
         ("imports", .jarr ((macImports wavDir walk).map entryJson))]

/-! ## Manifest building (Windows `WwiseBatchWorker._build_import_json`) -/

/-- One element of the Windows `AudioFiles` list. -/
structure WinEntry where
  audioFile : String
  objectPath : String
deriving DecidableEq

/-- Destination path of the Windows (flat-layout) builder:
`f"{self.object_root}\\{Path(w).stem}"` (line 139). -/
def winObjectPath (objectRoot w : String) : String :=
  objectRoot ++ "\\" ++ pathStem (posixName w)

/-- The `files` list comprehension of `_build_import_json` (line 139);
`absf` models `os.path.abspath`. -/
def winAudioFiles (absf : String → String) (objectRoot : String)
    (wavs : List String) : List WinEntry :=
  wavs.map (fun w => { audioFile := absf w, objectPath := winObjectPath objectRoot w })

/-- JSON shape of one Windows audio-file entry. -/
def winEntryJson (e : WinEntry) : Json :=
  .jobj [("AudioFile", .jstr e.audioFile), ("ObjectPath", .jstr e.objectPath)]

/-- The JSON document produced by `_build_import_json` (line 140):
`{"ImportOperation": {"ImportLocation": …, "ImportLanguage": …, "AudioFiles": …}}`. -/
def winBuildImportJson (absf : String → String)
    (objectRoot language : String) (wavs : List String) : Json :=
  .jobj [("ImportOperation", .jobj
    [("ImportLocation", .jstr "Actor-Mixer Hierarchy"),
     ("ImportLanguage", .jstr language),
     ("AudioFiles", .jarr ((winAudioFiles absf objectRoot wavs).map winEntryJson))])]

/-! ## Order characterization of the macOS manifest builder -/

/-- The inner file loop appends exactly the eligible files, in order. -/
theorem macImports_inner (wavDir : String) (rel : List String) :
    ∀ (files : List String) (acc : List ImportEntry),
      files.foldl
        (fun acc2 f =>
          if isWavName f then acc2 ++ [macEntry wavDir rel f] else acc2) acc
      = acc ++ (files.filter isWavName).map (macEntry wavDir rel) := by
  intro files
  induction files with
  | nil => intro acc; simp
  | cons f fs ih =>
    intro acc
    by_cases h : isWavName f
    · simp [List.foldl_cons, h, ih]
    · simp [List.foldl_cons, h, ih]

/-- The outer walk loop flattens the per-directory entry lists, in order. -/
theorem macImports_outer (wavDir : String) :
    ∀ (walk : List WalkEntry) (acc : List ImportEntry),
      walk.foldl
        (fun acc e =>
          e.files.foldl
            (fun acc2 f =>
              if isWavName f then acc2 ++ [macEntry wavDir e.relParts f]
              else acc2) acc) acc
      = acc ++ walk.flatMap
          (fun e => (e.files.filter isWavName).map (macEntry wavDir e.relParts)) := by
  intro walk
  induction walk with
  | nil => intro acc; simp
  | cons e es ih =>
    intro acc
    simp only [List.foldl_cons, List.flatMap_cons]
    rw [macImports_inner, ih, List.append_assoc]

/-- `macImports` is exactly the walk enumeration, filtered to eligible files
and mapped to entries, in enumeration order. -/
theorem macImports_characterization (wavDir : String) (walk : List WalkEntry) :
    macImports wavDir walk
      = walk.flatMap
          (fun e => (e.files.filter isWavName).map (macEntry wavDir e.relParts)) := by
  unfold macImports
  rw [macImports_outer]
  simp

/-! ## Filesystem model and the executable resolver
    (macOS `Worker._resolve_console`, lines 165–225) -/

/-- Observable state of one filesystem path in the model.  `content` is the
string the relevant read returns: full text for `read_text`, the first
(at most) 1 MiB chunk for the bounded binary reads; `readOk = false` models
a read that raises. -/
structure FileInfo where
  present : Bool
  isFile : Bool
  isDir : Bool
  execOk : Bool
  readOk : Bool
  content : String
deriving DecidableEq

/-- The model filesystem: per-path metadata plus `iterdir` enumeration
(children listed as full paths, in enumeration order). -/
structure FS where
  info : List String → FileInfo
  children : List String → List (List String)

/-- Markers scanned in launcher-script text, both by `_resolve_console`
(line 181) and by the safety gate of `Worker.run` (line 256):
the substrings winewrapper, WwiseConsole.exe and wine. -/
def scriptMarkers (t : String) : Bool :=
  strHas t "winewrapper" || strHas t "WwiseConsole.exe" || strHas t "wine"

/-- Markers scanned in the binary chunk by `_resolve_console` (line 202):
note the doubled leading backslash of the bytes literal, which denotes two backslash characters before Program Files. -/
def binMarkersResolve (t : String) : Bool :=
  strHas t "winewrapper" || strHas t "WwiseConsole.exe"
    || strHas t "\\\\Program Files\\Audiokinetic"

/-- Markers scanned in the binary chunk by the safety gate of `Worker.run`
(line 266): a single leading backslash before Program Files. -/
def binMarkersRun (t : String) : Bool :=
  strHas t "winewrapper" || strHas t "WwiseConsole.exe"
    || strHas t "\\Program Files\\Audiokinetic"

/-- Markers the binary branch of `_resolve_console` checks on a *sibling*
candidate (line 215): only `winewrapper` and `WwiseConsole.exe`. -/
def siblingBad (t : String) : Bool :=
  strHas t "winewrapper" || strHas t "WwiseConsole.exe"

/-- The prefix of `parts` through the first "Wwise.app" component, when present:
the prefix of the path up to and including its first `Wwise.app` component. -/
def takeThrough (x : String) : List String → Option (List String)
  | [] => none
  | a :: as => if a == x then some [a] else (takeThrough x as).map (fun l => a :: l)

/-- The `Contents/MacOS` directory of the enclosing `Wwise.app` bundle,
when the path has a `Wwise.app` component. -/
def bundleMacosDir (p : List String) : Option (List String) :=
  (takeThrough "Wwise.app" p).map (fun root => root ++ ["Contents", "MacOS"])

/-- Script branch sibling search (lines 190–192): the first `iterdir` child
that is a file and executable — its content is *not* inspected. -/
def firstExecChild (fs : FS) (dir : List String) : Option (List String) :=
  (fs.children dir).find? (fun c => (fs.info c).isFile && (fs.info c).execOk)

/-- Binary branch sibling search (lines 210–218): the first `iterdir` child
that is an executable file whose chunk reads without error and contains
neither `winewrapper` nor `WwiseConsole.exe` (a read error `continue`s). -/
def firstNativeSibling (fs : FS) (dir : List String) : Option (List String) :=
  (fs.children dir).find? (fun c =>
    (fs.info c).isFile && (fs.info c).execOk && (fs.info c).readOk
      && !(siblingBad (fs.info c).content))

/-- `Worker._resolve_console` (lines 165–225).  Every branch of the Python
function returns a path (all exceptions are caught), so the model is a total
function on paths. -/
def resolveConsole (fs : FS) (path : List String) : List String :=
  let i := fs.info path
  if !i.present then path
  else if pathSuffix (path.getLastD "") == ".sh" then
    let text := if i.readOk then i.content else ""
    if scriptMarkers text then
      match bundleMacosDir path with
      | some md =>
        if (fs.info md).present then
          match firstExecChild fs md with
          | some c => c
          | none => path
        else path
      | none => path
    else path
  else if i.present && i.execOk then
    if i.readOk then
      if binMarkersResolve i.content then
        match bundleMacosDir path with
        | some md =>
          if (fs.info md).present then
            match firstNativeSibling fs md with
            | some c => c
            | none => path
          else path
        | none => path
      else path
    else path
  else path

/-! ## macOS pipeline (`Worker.run` / `Worker.run_cli`, lines 127–303) -/

/-- A `"/"`-joined rendering of a component path (for argument vectors). -/
def renderPath (p : List String) : String := String.intercalate "/" p

/-- One external-console invocation as recorded by `run_cli`:
`executed = false` when dry-run substituted a log line for the launch. -/
structure Cmd where
  argv : List String
  executed : Bool
deriving DecidableEq

/-- Terminal state of a macOS `Worker.run` invocation.  `completed` is the
final `"All tasks completed successfully."` message (line 303); the other
constructors are the early `return`s of the validation block and of the
wine-delegation safety gate. -/
inductive MacOutcome where
  | invalidConsole
  | invalidProject
  | invalidWavDir
  | wineAborted
  | completed
deriving DecidableEq

/-- Run record of the macOS worker: the console commands in invocation
order, and the terminal state. -/
structure MacRun where
  cmds : List Cmd
  outcome : MacOutcome
deriving DecidableEq

/-- Parameters of a macOS `Worker`.  `outputDir = ""` models a falsy
`self.output_dir`. -/
structure MacWorker where
  console : List String
  project : List String
  wavDir : List String
  outputDir : String
  platforms : List String
  dryRun : Bool
  forceWine : Bool

/-- Environment of one macOS run: the filesystem and the `os.walk(wav_dir)`
enumeration.  No exit-code oracle appears because `run_cli` logs the child
return code but never acts on it (lines 148–163). -/
structure MacEnv where
  fs : FS
  walk : List WalkEntry

/-- `run_cli` (lines 127–163): resolve the console, prepend `bash` for a
`.sh` launcher, and either spawn (recording the exit code only in the log)
or, in dry-run, skip the launch. -/
def runCliCmd (env : MacEnv) (w : MacWorker) (args : List String) : Cmd :=
  let ctr := resolveConsole env.fs w.console
  let cs := renderPath ctr
  { argv := if strEndsWith cs ".sh" then "bash" :: cs :: args else cs :: args
    executed := !w.dryRun }

/-- The wine-delegation safety gate of `Worker.run` (lines 248–270): scan
the content of the *requested* console for the marker set of its branch.  A
missing file or a failed read leaves `bad = False`. -/
def macSafetyBad (fs : FS) (console : List String) : Bool :=
  let i := fs.info console
  if i.present then
    if pathSuffix (console.getLastD "") == ".sh" then
      if i.readOk then scriptMarkers i.content else false
    else
      if i.readOk then binMarkersRun i.content else false
  else false

/-- Import-stage argument list (line 283). -/
def macImportArgs (w : MacWorker) : List String :=
  [renderPath w.project, "tab-delimited-import", "-import-file",
   "/tmp/import_wwise.json"]

/-- Event-creation argument list (line 292); on POSIX,
`Path(obj_path).name` is the whole backslash-separated string, so the
event name is `"Play_" ++` the full object path. -/
def macEventArgs (w : MacWorker) (objPath : String) : List String :=
  [renderPath w.project, "create-new", "Event", "--name",
   "Play_" ++ posixName objPath, "--parent", "\\Events\\Default Work Unit",
   "--action", "Play", "--target", objPath]

/-- Generate-stage argument list for one platform (lines 298–300). -/
def macGenArgs (w : MacWorker) (plat : String) : List String :=
  [renderPath w.project, "generate-soundbank", "-platform", plat]
    ++ (if w.outputDir ≠ "" then ["-outdir", w.outputDir] else [])

/-- `Worker.run` (lines 227–303): validation, manifest construction, the
wine safety gate, then import, one event creation per import entry, and one
generation per platform.  The loops never consult the exit codes of the children,
so every stage is always invoked once the gate is passed. -/
def macRun (env : MacEnv) (w : MacWorker) : MacRun :=
  if !(env.fs.info w.console).present then ⟨[], .invalidConsole⟩
  else if !(env.fs.info w.project).present then ⟨[], .invalidProject⟩
  else if !(env.fs.info w.wavDir).isDir then ⟨[], .invalidWavDir⟩
  else
    let imports := macImports (renderPath w.wavDir) env.walk
    if macSafetyBad env.fs w.console && !w.forceWine then ⟨[], .wineAborted⟩
    else
      ⟨runCliCmd env w (macImportArgs w)
         :: (imports.map (fun imp => runCliCmd env w (macEventArgs w imp.objectPath))
             ++ w.platforms.map (fun plat => runCliCmd env w (macGenArgs w plat))),
       .completed⟩

/-- macOS `__main__` CLI entry (lines 480–527).  `argvLen` is
`len(sys.argv)`; `console` is the path after `--wwise-app` handling and
`discover_console()`, with `[]` modelling the empty string.  After
`worker.run()` the script falls off the end of `__main__`, so the
interpreter exits 0 regardless of how the run ended; `worker.run` itself
never calls `sys.exit` and swallows every stage failure. -/
def macCliMain (env : MacEnv) (argvLen : Nat) (console : List String)
    (project wavDir : List String) (outputDir : String)
    (platforms : List String) (dryRun forceWine : Bool) :
    Nat × Option MacRun :=
  if argvLen < 5 then (1, none)
  else if console = [] then (1, none)
  else (0, some (macRun env
    ⟨console, project, wavDir, outputDir, platforms, dryRun, forceWine⟩))

/-! ## Windows pipeline (`WwiseBatchWorker.run`, lines 100–136)
    and the `--ci` entry point (`main`, lines 281–317) -/

/-- Parameters of a Windows `WwiseBatchWorker`.  `outputDir = none` models
a falsy `self.output_dir`.  Event creation (`_create_events`) goes through
the WAAPI RPC client, never through a console subprocess, and per-item
failures never abort the run, so it contributes nothing to the recorded
console invocations. -/
structure WinWorker where
  console : String
  project : String
  soundbank : String
  wavs : List String
  platforms : List String
  outputDir : Option String
  autoBankname : Bool

/-- Run record of the Windows worker: console commands in invocation order,
the boolean `run` returns, and the terminal error message when it fails. -/
structure WinRun where
  invoked : List (List String)
  ok : Bool
  failMsg : Option String
deriving DecidableEq

/-- Import-stage argument list (line 112). -/
def winImportArgs (w : WinWorker) (importPath : String) : List String :=
  [w.console, w.project, "import", "-import-file", importPath]

/-- Generate-stage argument list for one platform (lines 121–123). -/
def winGenArgs (w : WinWorker) (bank plat : String) : List String :=
  [w.console, w.project, "generate-soundbank", "-platform", plat,
   "-soundbank", bank]
    ++ (match w.outputDir with | some o => ["-outdir", o] | none => [])

/-- The generation loop (lines 120–128): invoke per platform in order and
return `False` at the first non-zero exit code, naming that platform. -/
def winGenLoop (exec : List String → Int) (w : WinWorker) (bank : String) :
    List String → List (List String) → WinRun
  | [], acc => ⟨acc, true, none⟩
  | p :: ps, acc =>
    let cmd := winGenArgs w bank p
    if exec cmd == 0 then winGenLoop exec w bank ps (acc ++ [cmd])
    else ⟨acc ++ [cmd], false, some ("ERROR: generation failed for " ++ p)⟩

/-- The soundbank name `run` generates with: the parent folder name of the
first source file when `auto_bankname` is set (lines 102–103), the
configured name otherwise. -/
def bankOf (w : WinWorker) : String :=
  if w.autoBankname then parentName (w.wavs.headD "") else w.soundbank

/-- `WwiseBatchWorker.run` (lines 100–136).  With `auto_bankname` set and
no source files, `self.wavs[0]` raises `IndexError`, which the enclosing
`try` turns into a logged exception and `return False` before any
invocation. -/
def winWorkerRun (exec : List String → Int) (importPath : String)
    (w : WinWorker) : WinRun :=
  if w.autoBankname && w.wavs.isEmpty then
    ⟨[], false, some "Exception: list index out of range"⟩
  else
    let icmd := winImportArgs w importPath
    if exec icmd == 0 then winGenLoop exec w (bankOf w) w.platforms [icmd]
    else ⟨[icmd], false, some "ERROR: import failed"⟩

/-- The source-file scan of the `--ci` entry (line 306): walk the input
tree and keep the eligible file paths in enumeration order. -/
def ciWavs (input : String) (walk : List WalkEntry) : List String :=
  walk.flatMap (fun e =>
    (e.files.filter isWavName).map
      (fun f => joinPath (joinPath input e.relParts) [f]))

/-- Exit status and recorded console invocations of one `--ci` run. -/
structure CiOut where
  exitStatus : Nat
  invoked : List (List String)
deriving DecidableEq

/-- Console selection of the `--ci` branch (lines 298–300): `args.console`
when given (with `none` for both absent and empty), otherwise the
`discover_windows_console()` fallback (`none` off Windows or when nothing
was found). -/
def ciConsole (consoleArg discovered : Option String) : Option String :=
  match consoleArg with
  | some c => some c
  | none => discovered

/-- The `--ci` branch of `main` (lines 281–315).  Exit 2 when no valid
console file, exit 3 when the scan finds no source files.  Past those
checks, line 313 constructs `WwiseBatchWorker` with 12 positional arguments
for its 13 required parameters (`True` lands on `auto_bankname` and
`logger` on `ci_mode`; `logger` itself is missing), so Python raises
`TypeError` before any stage runs and the interpreter terminates with
status 1 — the `sys.exit(0 if ok else 1)` on line 315 is unreachable. -/
def winCiMain (isFile : String → Bool) (consoleArg discovered : Option String)
    (input : String) (walk : List WalkEntry) : CiOut :=
  match ciConsole consoleArg discovered with
  | none => ⟨2, []⟩
  | some c =>
    if !(isFile c) then ⟨2, []⟩
    else if (ciWavs input walk).isEmpty then ⟨3, []⟩
    else ⟨1, []⟩

/-! ## Fixture helpers -/

/-- A missing path. -/
def noFile : FileInfo := ⟨false, false, false, false, false, ""⟩

/-- An existing directory (content reads raise). -/
def plainDir : FileInfo := ⟨true, false, true, true, false, ""⟩

/-- An existing executable regular file with readable content. -/
def execFile (content : String) : FileInfo :=
  ⟨true, true, false, true, true, content⟩

/-- The empty text contains no script marker. -/
theorem scriptMarkers_empty : scriptMarkers "" = false := by decide

/-! ## C10 — resolver totality and identity cases -/

/-- C10: console resolution is a total function in the model (every Python
branch returns and all exceptions are caught), and it returns the requested
path unchanged whenever the path does not exist or its content contains
none of the delegation markers. -/
theorem resolveConsole_id (fs : FS) (p : List String)
    (h : (fs.info p).present = false
       ∨ (scriptMarkers (fs.info p).content = false
            ∧ binMarkersResolve (fs.info p).content = false)) :
    resolveConsole fs p = p := by
  unfold resolveConsole
  rcases h with h | ⟨hs, hb⟩
  · simp [h]
  · by_cases hp : (fs.info p).present
    · simp only [hp, Bool.not_true, Bool.false_eq_true, if_false]
      by_cases hsh : (pathSuffix (p.getLastD "") == ".sh") = true
      · simp only [hsh, if_true]
        have htext : scriptMarkers
            (if (fs.info p).readOk then (fs.info p).content else "") = false := by
          cases hr : (fs.info p).readOk
          · simpa using scriptMarkers_empty
          · simpa using hs
        simp [htext]
      · simp only [Bool.not_eq_true] at hsh
        simp only [hsh, Bool.false_eq_true, if_false, hp, Bool.true_and]
        by_cases hex : (fs.info p).execOk = true
        · simp only [hex, if_true]
          cases hr : (fs.info p).readOk
          · simp
          · simp [hb]
        · simp only [Bool.not_eq_true] at hex
          simp [hex]
    · simp at hp
      simp [hp]

/-- C10 witness: a concrete existing marker-free binary resolves to itself. -/
def c10fs : FS :=
  { info := fun p =>
      if p = ["opt", "WwiseConsole"] then execFile "native code" else noFile
    children := fun _ => [] }

/-- Witness for C10 at a concrete marker-free executable. -/
theorem resolveConsole_id_witness :
    ((c10fs.info ["opt", "WwiseConsole"]).present = false
       ∨ (scriptMarkers (c10fs.info ["opt", "WwiseConsole"]).content = false
            ∧ binMarkersResolve (c10fs.info ["opt", "WwiseConsole"]).content = false))
      ∧ resolveConsole c10fs ["opt", "WwiseConsole"] = ["opt", "WwiseConsole"] :=
  ⟨Or.inr (by decide), resolveConsole_id c10fs ["opt", "WwiseConsole"]
    (Or.inr (by decide))⟩

/-! ## C5 — substitution search -/

/-- C5 counterexample fixture: a delegating launcher script whose bundle
sibling itself contains the `winewrapper` marker. -/
def c5shPath : List String :=
  ["Apps", "Wwise.app", "Contents", "Tools", "WwiseConsole.sh"]

/-- The marker-carrying sibling inside `Contents/MacOS`. -/
def c5sibling : List String := ["Apps", "Wwise.app", "Contents", "MacOS", "Wine64"]

/-- The `Contents/MacOS` directory of the bundle. -/
def c5macosDir : List String := ["Apps", "Wwise.app", "Contents", "MacOS"]

/-- Filesystem for the C5 counterexample. -/
def c5fs : FS :=
  { info := fun p =>
      if p = c5shPath then execFile "exec wine WwiseConsole.exe"
      else if p = c5sibling then execFile "winewrapper loader stub"
      else if p = c5macosDir then plainDir
      else noFile
    children := fun d => if d = c5macosDir then [c5sibling] else [] }

/-- C5 counterexample: the script branch of `_resolve_console` substitutes
the first executable sibling inside the `Contents/MacOS` directory of the bundle
without inspecting its content — here the returned sibling itself contains
the `winewrapper` marker, contradicting the claim that a sibling is
returned only if its content is marker-free. -/
theorem c5_counterexample :
    resolveConsole c5fs c5shPath = c5sibling
      ∧ siblingBad (c5fs.info c5sibling).content = true := by
  constructor
  · decide
  · decide

/-- C5 amended: only the *binary* branch filters sibling candidates by
content, and only against the `winewrapper` / `WwiseConsole.exe` markers;
any sibling it returns is marker-free in that sense, and when no qualifying
sibling exists the original path is returned unchanged. -/
theorem resolveConsole_binary_sibling (fs : FS) (p : List String)
    (hpre : (fs.info p).present = true)
    (hsh : (pathSuffix (p.getLastD "") == ".sh") = false)
    (hex : (fs.info p).execOk = true)
    (hrd : (fs.info p).readOk = true)
    (hmark : binMarkersResolve (fs.info p).content = true) :
    resolveConsole fs p = p
      ∨ ∃ md c, bundleMacosDir p = some md
          ∧ c ∈ fs.children md
          ∧ resolveConsole fs p = c
          ∧ siblingBad (fs.info c).content = false := by
  unfold resolveConsole
  simp only [hpre, Bool.not_true, Bool.false_eq_true, if_false, hsh, hex,
    Bool.true_and, if_true, hrd, hmark]
  rcases hbd : bundleMacosDir p with _ | md
  · exact Or.inl rfl
  · by_cases hmd : (fs.info md).present = true
    · simp only [hmd, if_true]
      rcases hf : firstNativeSibling fs md with _ | c
      · exact Or.inl rfl
      · refine Or.inr ⟨md, c, rfl, ?_, rfl, ?_⟩
        · exact List.mem_of_find?_eq_some hf
        · have hpred := List.find?_some hf
          simp only [Bool.and_eq_true, Bool.not_eq_true'] at hpred
          exact hpred.2
    · simp only [Bool.not_eq_true] at hmd
      simp [hmd]

/-- C5 witness fixture: a delegating binary with one marker-carrying and
one native sibling in `Contents/MacOS`. -/
def c5binPath : List String := ["Apps", "Wwise.app", "Contents", "MacOS", "Wwise"]

/-- The clean native sibling. -/
def c5native : List String := ["Apps", "Wwise.app", "Contents", "MacOS", "WwiseNative"]

/-- Filesystem for the C5 witness. -/
def c5fs2 : FS :=
  { info := fun p =>
      if p = c5binPath then execFile "stub winewrapper"
      else if p = c5native then execFile "mach-o native"
      else if p = c5macosDir then plainDir
      else noFile
    children := fun d => if d = c5macosDir then [c5binPath, c5native] else [] }

/-- Witness for the amended C5 at a concrete delegating binary. -/
theorem resolveConsole_binary_sibling_witness :
    ((c5fs2.info c5binPath).present = true
      ∧ (pathSuffix (c5binPath.getLastD "") == ".sh") = false
      ∧ (c5fs2.info c5binPath).execOk = true
      ∧ (c5fs2.info c5binPath).readOk = true
      ∧ binMarkersResolve (c5fs2.info c5binPath).content = true)
      ∧ (resolveConsole c5fs2 c5binPath = c5binPath
          ∨ ∃ md c, bundleMacosDir c5binPath = some md
              ∧ c ∈ c5fs2.children md
              ∧ resolveConsole c5fs2 c5binPath = c
              ∧ siblingBad (c5fs2.info c).content = false) :=
  ⟨⟨by decide, by decide, by decide, by decide, by decide⟩,
   resolveConsole_binary_sibling c5fs2 c5binPath (by decide) (by decide)
     (by decide) (by decide) (by decide)⟩

/-! ## C4 — wine-delegation safety gate -/

/-- C4: when the content of the selected console contains a delegation
marker of the marker set of its branch (script text for `.sh` launchers, the 1 MiB binary
chunk otherwise), `Worker.run` aborts after validation and manifest
construction but before invoking any external console command unless
`force_wine` is set, and proceeds through the full pipeline when it is. -/
theorem macRun_safety_gate (env : MacEnv) (w : MacWorker)
    (hc : (env.fs.info w.console).present = true)
    (hp : (env.fs.info w.project).present = true)
    (hd : (env.fs.info w.wavDir).isDir = true)
    (hrd : (env.fs.info w.console).readOk = true)
    (hmark : (if pathSuffix (w.console.getLastD "") == ".sh"
              then scriptMarkers (env.fs.info w.console).content
              else binMarkersRun (env.fs.info w.console).content) = true) :
    (w.forceWine = false → macRun env w = ⟨[], .wineAborted⟩)
      ∧ (w.forceWine = true → (macRun env w).outcome = .completed
           ∧ (macRun env w).cmds ≠ []) := by
  have hbad : macSafetyBad env.fs w.console = true := by
    unfold macSafetyBad
    by_cases hsh : (pathSuffix (w.console.getLastD "") == ".sh") = true
    · simp only [hsh, if_true] at hmark ⊢
      simp [hc, hrd, hmark]
    · simp only [Bool.not_eq_true] at hsh
      simp only [hsh, Bool.false_eq_true, if_false] at hmark ⊢
      simp [hc, hrd, hmark]
  constructor
  · intro hfw
    unfold macRun
    simp [hc, hp, hd, hbad, hfw]
  · intro hfw
    unfold macRun
    simp [hc, hp, hd, hbad, hfw]

/-- C4 witness fixture: a delegating `.sh` launcher selected as console. -/
def c4console : List String := ["Tools", "WwiseConsole.sh"]

/-- Project file of the C4 witness. -/
def c4project : List String := ["proj", "Game.wproj"]

/-- Source directory of the C4 witness. -/
def c4wavdir : List String := ["snd"]

/-- Filesystem for the C4 witness. -/
def c4fs : FS :=
  { info := fun p =>
      if p = c4console then execFile "wine WwiseConsole.exe Tools"
      else if p = c4project then execFile "project"
      else if p = c4wavdir then plainDir
      else noFile
    children := fun _ => [] }

/-- Environment for the C4 witness. -/
def c4env : MacEnv := ⟨c4fs, [⟨[], ["a.wav"]⟩]⟩

/-- Worker for the C4 witness: override not set. -/
def c4worker : MacWorker := ⟨c4console, c4project, c4wavdir, "", ["macOS"], false, false⟩

/-- Witness for C4: with the override unset, the delegating console aborts
the run with no external command invoked. -/
theorem macRun_safety_gate_witness :
    ((c4fs.info c4console).present = true
      ∧ (c4fs.info c4project).present = true
      ∧ (c4fs.info c4wavdir).isDir = true
      ∧ (c4fs.info c4console).readOk = true
      ∧ (if pathSuffix (c4console.getLastD "") == ".sh"
         then scriptMarkers (c4fs.info c4console).content
         else binMarkersRun (c4fs.info c4console).content) = true
      ∧ c4worker.forceWine = false)
      ∧ macRun c4env c4worker = ⟨[], .wineAborted⟩ :=
  ⟨⟨by decide, by decide, by decide, by decide, by decide, rfl⟩,
   (macRun_safety_gate c4env c4worker (by decide) (by decide) (by decide)
      (by decide) (by decide)).1 rfl⟩

/-! ## C8 — dry-run simulation -/

/-- C8: with `dry_run` set and a valid console/project/source triple (and
the wine gate passed), validation and manifest construction run normally,
no external process is spawned for any stage — every recorded command is
unexecuted — one command is recorded per stage (one import, one event
creation per manifest entry, one generation per platform), and the run
reaches the terminal success message. -/
theorem macRun_dry (env : MacEnv) (w : MacWorker)
    (hc : (env.fs.info w.console).present = true)
    (hp : (env.fs.info w.project).present = true)
    (hd : (env.fs.info w.wavDir).isDir = true)
    (hsafe : macSafetyBad env.fs w.console = false ∨ w.forceWine = true)
    (hdry : w.dryRun = true) :
    (macRun env w).outcome = .completed
      ∧ (∀ c ∈ (macRun env w).cmds, c.executed = false)
      ∧ (macRun env w).cmds.length
          = 1 + (macImports (renderPath w.wavDir) env.walk).length
              + w.platforms.length := by
  have hgate : (macSafetyBad env.fs w.console && !w.forceWine) = false := by
    rcases hsafe with h | h <;> simp [h]
  have hrun : macRun env w
      = ⟨runCliCmd env w (macImportArgs w)
           :: ((macImports (renderPath w.wavDir) env.walk).map
                 (fun imp => runCliCmd env w (macEventArgs w imp.objectPath))
               ++ w.platforms.map (fun plat => runCliCmd env w (macGenArgs w plat))),
         .completed⟩ := by
    unfold macRun
    simp [hc, hp, hd, hgate]
  refine ⟨by rw [hrun], ?_, ?_⟩
  · intro c hmem
    rw [hrun] at hmem
    simp only [List.mem_cons, List.mem_append, List.mem_map] at hmem
    rcases hmem with h | ⟨x, _, h⟩ | ⟨x, _, h⟩
    · rw [h]; simp [runCliCmd, hdry]
    · rw [← h]; simp [runCliCmd, hdry]
    · rw [← h]; simp [runCliCmd, hdry]
  · rw [hrun]
    simp [List.length_cons, List.length_append, List.length_map]
    omega

/-- Worker for the C8 witness: dry-run over a native console. -/
def c8console : List String := ["opt", "WwiseConsole"]

/-- Filesystem for the C8 witness. -/
def c8fs : FS :=
  { info := fun p =>
      if p = c8console then execFile "native console"
      else if p = ["proj", "Game.wproj"] then execFile "project"
      else if p = ["snd"] then plainDir
      else noFile
    children := fun _ => [] }

/-- Environment for the C8 witness: one source file. -/
def c8env : MacEnv := ⟨c8fs, [⟨[], ["a.wav"]⟩]⟩

/-- Dry-run worker for the C8 witness, two target platforms. -/
def c8worker : MacWorker :=
  ⟨c8console, ["proj", "Game.wproj"], ["snd"], "out", ["X", "Y"], true, false⟩

/-- Witness for C8: the concrete dry run reaches success, executes nothing,
and records one command per stage. -/
theorem macRun_dry_witness :
    ((c8fs.info c8worker.console).present = true
      ∧ (c8fs.info c8worker.project).present = true
      ∧ (c8fs.info c8worker.wavDir).isDir = true
      ∧ macSafetyBad c8fs c8worker.console = false
      ∧ c8worker.dryRun = true)
      ∧ (macRun c8env c8worker).outcome = .completed
      ∧ (∀ c ∈ (macRun c8env c8worker).cmds, c.executed = false)
      ∧ (macRun c8env c8worker).cmds.length
          = 1 + (macImports (renderPath c8worker.wavDir) c8env.walk).length
              + c8worker.platforms.length :=
  ⟨⟨by decide, by decide, by decide, by decide, rfl⟩,
   macRun_dry c8env c8worker (by decide) (by decide) (by decide)
     (Or.inl (by decide)) rfl⟩

/-! ## C2 — Generate-stage fail-fast -/

/-- Console path of the C2 counterexample. -/
def c2console : List String := ["opt", "wwise", "WwiseConsole"]

/-- Filesystem for the C2 counterexample. -/
def c2fs : FS :=
  { info := fun p =>
      if p = c2console then execFile "native console"
      else if p = ["proj", "Game.wproj"] then execFile "project"
      else if p = ["snd"] then plainDir
      else noFile
    children := fun _ => [] }

/-- Environment for the C2 counterexample: one source file. -/
def c2env : MacEnv := ⟨c2fs, [⟨[], ["a.wav"]⟩]⟩

/-- Worker for the C2 counterexample, two target platforms. -/
def c2worker : MacWorker :=
  ⟨c2console, ["proj", "Game.wproj"], ["snd"], "", ["X", "Y"], false, false⟩

/-- C2 counterexample: the macOS worker never consults the exit code of a
spawned stage (`run_cli` only logs it), so even when generation for the
first platform `X` fails, generation for the remaining platform `Y` is
still invoked — its command is in the recorded invocation list, with
`executed = true` — and the run still ends in the terminal success message
instead of a Generate-stage failure. -/
theorem c2_counterexample :
    (macRun c2env c2worker).outcome = .completed
      ∧ (⟨["opt/wwise/WwiseConsole", "proj/Game.wproj", "generate-soundbank",
           "-platform", "Y"], true⟩ : Cmd) ∈ (macRun c2env c2worker).cmds := by
  constructor
  · decide
  · decide

/-- C2 amended: the Windows worker is fail-fast — when import succeeds and
generation for the first of at least two platforms exits non-zero, the run
stops with exactly the import and first-generation invocations recorded,
returns `False`, and logs a failure naming that first platform. -/
theorem winRun_failfast (exec : List String → Int) (importPath : String)
    (w : WinWorker) (p1 p2 : String) (rest : List String)
    (hplat : w.platforms = p1 :: p2 :: rest)
    (hpre : (w.autoBankname && w.wavs.isEmpty) = false)
    (himp : exec (winImportArgs w importPath) = 0)
    (hfail : exec (winGenArgs w (bankOf w) p1) ≠ 0) :
    winWorkerRun exec importPath w
      = ⟨[winImportArgs w importPath, winGenArgs w (bankOf w) p1], false,
         some ("ERROR: generation failed for " ++ p1)⟩ := by
  have hbeq : (exec (winGenArgs w (bankOf w) p1) == 0) = false := by
    simpa using hfail
  unfold winWorkerRun
  simp only [hpre, Bool.false_eq_true, if_false, himp]
  rw [hplat]
  simp [winGenLoop, hbeq]

/-- Windows worker for the C2 witness. -/
def c2winWorker : WinWorker :=
  ⟨"WwiseConsole.exe", "Game.wproj", "AutoBank", ["snd/a.wav"],
   ["Windows", "Android"], none, false⟩

/-- Exit-code oracle for the C2 witness: the first generation fails. -/
def c2exec : List String → Int :=
  fun argv =>
    if argv = winGenArgs c2winWorker (bankOf c2winWorker) "Windows" then 1 else 0

/-- Witness for the amended C2 at a concrete two-platform run. -/
theorem winRun_failfast_witness :
    (c2winWorker.platforms = "Windows" :: "Android" :: []
      ∧ (c2winWorker.autoBankname && c2winWorker.wavs.isEmpty) = false
      ∧ c2exec (winImportArgs c2winWorker "import.json") = 0
      ∧ c2exec (winGenArgs c2winWorker (bankOf c2winWorker) "Windows") ≠ 0)
      ∧ winWorkerRun c2exec "import.json" c2winWorker
          = ⟨[winImportArgs c2winWorker "import.json",
              winGenArgs c2winWorker (bankOf c2winWorker) "Windows"], false,
             some "ERROR: generation failed for Windows"⟩ :=
  ⟨⟨rfl, by decide, by decide, by decide⟩,
   winRun_failfast c2exec "import.json" c2winWorker "Windows" "Android" []
     rfl (by decide) (by decide) (by decide)⟩

/-! ## C3 — empty source set -/

/-- Console path of the C3 counterexample. -/
def c3console : List String := ["opt", "WwiseConsole"]

/-- Filesystem for the C3 counterexample. -/
def c3fs : FS :=
  { info := fun p =>
      if p = c3console then execFile "native console"
      else if p = ["proj", "Game.wproj"] then execFile "project"
      else if p = ["snd"] then plainDir
      else noFile
    children := fun _ => [] }

/-- Environment for the C3 counterexample: the walk finds no files at all. -/
def c3env : MacEnv := ⟨c3fs, [⟨[], []⟩]⟩

/-- Worker for the C3 counterexample. -/
def c3worker : MacWorker :=
  ⟨c3console, ["proj", "Game.wproj"], ["snd"], "", ["macOS"], false, false⟩

/-- C3 counterexample: on a source directory with no eligible files the
macOS worker raises no empty-source-set error — it writes an empty manifest
and proceeds to launch (executed = true) the import and generation
processes, ending in the terminal success message. -/
theorem c3_counterexample :
    macImports (renderPath c3worker.wavDir) c3env.walk = []
      ∧ macRun c3env c3worker
          = ⟨[⟨["opt/WwiseConsole", "proj/Game.wproj", "tab-delimited-import",
                "-import-file", "/tmp/import_wwise.json"], true⟩,
              ⟨["opt/WwiseConsole", "proj/Game.wproj", "generate-soundbank",
                "-platform", "macOS"], true⟩], .completed⟩ := by
  constructor
  · decide
  · decide

/-- C3 amended: the Windows `--ci` entry point does fail on an empty source
set before any external process is launched — with a valid console and no
eligible file in the walked tree it exits with status 3 and an empty
invocation record. -/
theorem winCi_empty_sources (isFile : String → Bool)
    (consoleArg discovered : Option String) (input : String)
    (walk : List WalkEntry) (c : String)
    (hc : ciConsole consoleArg discovered = some c)
    (hfile : isFile c = true)
    (hwavs : ciWavs input walk = []) :
    winCiMain isFile consoleArg discovered input walk = ⟨3, []⟩ := by
  unfold winCiMain
  rw [hc]
  simp [hfile, hwavs]

/-- Witness for the amended C3 at a concrete empty input tree. -/
theorem winCi_empty_sources_witness :
    (ciConsole (some "WwiseConsole.exe") none = some "WwiseConsole.exe"
      ∧ (fun s => s == "WwiseConsole.exe") "WwiseConsole.exe" = true
      ∧ ciWavs "snd" [⟨[], ["readme.txt"]⟩] = [])
      ∧ winCiMain (fun s => s == "WwiseConsole.exe") (some "WwiseConsole.exe")
          none "snd" [⟨[], ["readme.txt"]⟩] = ⟨3, []⟩ :=
  ⟨⟨rfl, by decide, by decide⟩,
   winCi_empty_sources (fun s => s == "WwiseConsole.exe")
     (some "WwiseConsole.exe") none "snd" [⟨[], ["readme.txt"]⟩]
     "WwiseConsole.exe" rfl (by decide) (by decide)⟩

/-! ## C6 — manifest file shape -/

/-- C6 counterexample: the manifest the Windows worker writes for its own
Import stage carries no `importOperation` key at all — its single top-level key
is `ImportOperation`, holding an object, not the string `"useExisting"`. -/
theorem c6_counterexample :
    (Json.get? (winBuildImportJson (fun s => s) "\\Actor-Mixer Hierarchy\\Auto"
        "SFX" ["snd/a.wav"]) "importOperation").isSome = false
      ∧ (Json.get? (winBuildImportJson (fun s => s) "\\Actor-Mixer Hierarchy\\Auto"
          "SFX" ["snd/a.wav"]) "ImportOperation").isSome = true := by
  constructor
  · rfl
  · rfl

/-- C6 amended: the *macOS* manifest is a JSON object whose
`importOperation` key is the string `"useExisting"` and whose `imports` key
holds one object per discovered source file — keys `audioFile` (the
walk-joined source path, absolute whenever the source root is absolute) and
`objectPath` (the backslash-separated destination path) — in enumeration
order. -/
theorem macManifest_shape (wavDir : String) (walk : List WalkEntry) :
    Json.get? (macManifest wavDir walk) "importOperation"
        = some (.jstr "useExisting")
      ∧ Json.get? (macManifest wavDir walk) "imports"
          = some (.jarr
              (((walk.flatMap (fun e =>
                  (e.files.filter isWavName).map (macEntry wavDir e.relParts)))).map
                entryJson)) := by
  constructor
  · rfl
  · have h : Json.get? (macManifest wavDir walk) "imports"
        = some (.jarr ((macImports wavDir walk).map entryJson)) := rfl
    rw [h, macImports_characterization]

/-! ## C7 — manifest determinism and entry order -/

/-- Walk fixture for the C7 counterexample: the filesystem enumerates
`b.wav` before `a.wav` in the same directory. -/
def c7walk : List WalkEntry := [⟨[], ["b.wav", "a.wav"]⟩]

/-- Strict lexicographic order on character lists by code point (the
standard string order, spelt out so it evaluates in the kernel). -/
def lexLt : List Char → List Char → Bool
  | [], [] => false
  | [], _ :: _ => true
  | _ :: _, [] => false
  | a :: as, b :: bs =>
    if a.toNat < b.toNat then true
    else if a.toNat == b.toNat then lexLt as bs
    else false

/-- Lexicographic order on strings (code-point order). -/
def strLt (a b : String) : Bool := lexLt a.data b.data

/-- C7 counterexample: the builder emits entries in filesystem enumeration
order, not sorted by full source path — with enumeration `b.wav, a.wav`
the manifest order is `d/b.wav, d/a.wav` although `d/a.wav` precedes
`d/b.wav` in path order. -/
theorem c7_counterexample :
    (macImports "d" c7walk).map (fun e => e.audioFile) = ["d/b.wav", "d/a.wav"]
      ∧ strLt "d/a.wav" "d/b.wav" = true := by
  constructor
  · decide
  · decide

/-- C7 amended: manifest building is a pure function of the walk
enumeration — its `audioFile` sequence is exactly the sequence of eligible
enumerated files, joined to full paths, in enumeration order (so identical
enumerations give identical manifests, but no sorting is applied). -/
theorem macImports_order (wavDir : String) (walk : List WalkEntry) :
    (macImports wavDir walk).map (fun e => e.audioFile)
      = walk.flatMap (fun e =>
          (e.files.filter isWavName).map
            (fun f => joinPath (joinPath wavDir e.relParts) [f])) := by
  rw [macImports_characterization]
  simp only [List.map_flatMap, List.map_map]
  rfl

/-! ## C9 — destination-path uniqueness -/

/-- C9 counterexample: under the flat Windows layout, two source files with
the same base name in different subfolders receive *identical* destination
paths, and both entries are kept — the destination paths of a batch are not
pairwise distinct. -/
theorem c9_counterexample :
    (winAudioFiles (fun s => s) "\\Actor-Mixer Hierarchy\\Auto"
        ["a/x.wav", "b/x.wav"]).map (fun e => e.objectPath)
      = ["\\Actor-Mixer Hierarchy\\Auto\\x", "\\Actor-Mixer Hierarchy\\Auto\\x"]
      ∧ ¬ ((winAudioFiles (fun s => s) "\\Actor-Mixer Hierarchy\\Auto"
            ["a/x.wav", "b/x.wav"]).map (fun e => e.objectPath)).Nodup := by
  constructor
  · decide
  · decide

/-- C9 amended: the flat-layout builder derives the destination path from
the base-name stem alone, so any two source files with equal stems collide,
and no detection or rejection happens — both entries stay in the batch. -/
theorem winObjectPath_collision (absf : String → String)
    (objectRoot w1 w2 : String)
    (hstem : pathStem (posixName w1) = pathStem (posixName w2)) :
    winObjectPath objectRoot w1 = winObjectPath objectRoot w2
      ∧ (winAudioFiles absf objectRoot [w1, w2]).length = 2 := by
  constructor
  · unfold winObjectPath
    rw [hstem]
  · rfl

/-- Witness for the amended C9 at two same-stem files in different
subfolders. -/
theorem winObjectPath_collision_witness :
    pathStem (posixName "a/x.wav") = pathStem (posixName "b/x.wav")
      ∧ (winObjectPath "\\Root" "a/x.wav" = winObjectPath "\\Root" "b/x.wav"
          ∧ (winAudioFiles (fun s => s) "\\Root" ["a/x.wav", "b/x.wav"]).length = 2) :=
  ⟨by decide,
   winObjectPath_collision (fun s => s) "\\Root" "a/x.wav" "b/x.wav" (by decide)⟩

/-! ## C1 — CI exit codes -/

/-- Walk fixture for the C1 evaluation: one eligible source file. -/
def c1walk : List WalkEntry := [⟨[], ["a.wav"]⟩]

/-- `os.path.isfile` oracle for the C1 evaluation. -/
def c1isFile : String → Bool := fun s => s == "C:/Wwise/WwiseConsole.exe"

/-- C1 evaluation at the failing input: with a valid console and a
non-empty source set — the configuration whose whole run the claim says
exits 0 — the `--ci` entry exits 1 with no stage ever invoked, because the
`WwiseBatchWorker` construction on line 313 passes 12 positional arguments
to a 13-parameter initializer and the resulting `TypeError` terminates the
interpreter.  (Exit 2 for a missing executable and exit 3 for an empty
source set are reached as intended.) -/
theorem c1_ci_crash :
    winCiMain c1isFile (some "C:/Wwise/WwiseConsole.exe") none "snd" c1walk
        = ⟨1, []⟩
      ∧ ciWavs "snd" c1walk ≠ []
      ∧ winCiMain c1isFile none none "snd" c1walk = ⟨2, []⟩
      ∧ winCiMain c1isFile (some "C:/Wwise/WwiseConsole.exe") none "snd"
          [⟨[], []⟩] = ⟨3, []⟩ := by
  refine ⟨by decide, by decide, by decide, by decide⟩

end W2B
